import Mathlib

/-!
Shallow embedding of the core valuation pipeline of the LA real-estate
appraisal engine: the DSCR loan-sizing model (`src/models/dscr_loan_model.py`),
the cap-rate model (`src/models/cap_rate_model.py`), the weighted-average
recommendation engine (`src/models/recommendation_engine_2.py`) and the sales
comparison model (`src/models/sales_comp_model.py`).

Python `float` values are embedded as exact rationals (`ℚ`); Python's builtin
`round(x, k)` (round-half-to-even) is embedded as `roundTo` below, acting on
the exact rational value.  `None`-able values are embedded as `Option ℚ`, and
Python truthiness tests on them (`if not x`) check for `none` or `0`.
-/

namespace Appraisal

/-- Floor of a rational: `q.num / q.den` with Euclidean integer division.
Agrees with `Int.floor` (see `ratFloor_eq_floor`); kept as a plain integer
division so that concrete instances evaluate by `decide`. -/
def ratFloor (q : ℚ) : ℤ := q.num / q.den

/-- Round-half-to-even to the nearest integer, which is what Python's builtin
`round` does (on the exact value of its argument). -/
def roundHalfEven (q : ℚ) : ℤ :=
  if q - ratFloor q < 1/2 then ratFloor q
  else if 1/2 < q - ratFloor q then ratFloor q + 1
  else if ratFloor q % 2 = 0 then ratFloor q else ratFloor q + 1

/-- Python's `round(q, k)`: round-half-to-even at the k-th decimal place. -/
def roundTo (k : ℕ) (q : ℚ) : ℚ := (roundHalfEven (q * 10 ^ k) : ℚ) / 10 ^ k

/-! ## DSCR loan sizing model (`src/models/dscr_loan_model.py`) -/

/-- Constructor fields of `DSCRLoanModel`. -/
structure DSCRLoanModel where
  noi : ℚ
  purchase_price : ℚ
  interest_rate : ℚ
  amort_years : ℕ
  min_dscr : ℚ
  max_ltv : ℚ

namespace DSCRLoanModel

/-- `_monthly_rate`. -/
def monthlyRate (m : DSCRLoanModel) : ℚ := m.interest_rate / 12

/-- `_num_payments`. -/
def numPayments (m : DSCRLoanModel) : ℕ := m.amort_years * 12

/-- `_payment_for_loan`: standard monthly mortgage payment (P&I),
degrading to straight-line `loan / n` when the monthly rate is ≤ 0. -/
def paymentForLoan (m : DSCRLoanModel) (loan_amount : ℚ) : ℚ :=
  if m.monthlyRate ≤ 0 then loan_amount / (m.numPayments : ℚ)
  else
    (loan_amount * m.monthlyRate * (1 + m.monthlyRate) ^ m.numPayments) /
      ((1 + m.monthlyRate) ^ m.numPayments - 1)

/-- `_loan_from_annual_debt_service`: algebraic inverse of the annuity
formula, degrading to `monthly_payment * n` when the monthly rate is ≤ 0. -/
def loanFromAnnualDebtService (m : DSCRLoanModel) (annual_debt_service : ℚ) : ℚ :=
  if m.monthlyRate ≤ 0 then (annual_debt_service / 12) * (m.numPayments : ℚ)
  else
    (annual_debt_service / 12) *
      (((1 + m.monthlyRate) ^ m.numPayments - 1) /
        (m.monthlyRate * (1 + m.monthlyRate) ^ m.numPayments))

/-- `loan_by_dscr`. -/
def loanByDscr (m : DSCRLoanModel) : Option ℚ :=
  if m.min_dscr ≤ 0 ∨ m.noi ≤ 0 then none
  else some (m.loanFromAnnualDebtService (m.noi / m.min_dscr))

/-- `loan_by_ltv`. -/
def loanByLtv (m : DSCRLoanModel) : Option ℚ :=
  if m.max_ltv ≤ 0 ∨ m.purchase_price ≤ 0 then none
  else some (m.purchase_price * m.max_ltv)

/-- `final_loan_amount`. -/
def finalLoanAmount (m : DSCRLoanModel) : Option ℚ :=
  match m.loanByDscr, m.loanByLtv with
  | none, none => none
  | none, some l => some l
  | some l, none => some l
  | some a, some b => some (min a b)

/-- The dict returned by `metrics_for_loan`. -/
structure LoanMetrics where
  loan_amount : ℚ
  monthly_payment : ℚ
  annual_debt_service : ℚ
  dscr : Option ℚ
  ltv : Option ℚ
deriving DecidableEq

/-- `metrics_for_loan`. -/
def metricsForLoan (m : DSCRLoanModel) (loan_amount : ℚ) : LoanMetrics :=
  let monthly_payment := m.paymentForLoan loan_amount
  let annual_debt_service := monthly_payment * 12
  let dscr : Option ℚ :=
    if annual_debt_service > 0 then some (m.noi / annual_debt_service) else none
  let ltv : Option ℚ :=
    if m.purchase_price > 0 then some (loan_amount / m.purchase_price) else none
  ⟨roundTo 2 loan_amount, roundTo 2 monthly_payment, roundTo 2 annual_debt_service,
    dscr.map (roundTo 3), ltv.map (roundTo 3)⟩

/-- The metrics block of `summary`:
`metrics_for_loan(final_loan) if final_loan else None`.  Python truthiness
means a final loan of `None` *or* `0` produces no metrics. -/
def summaryMetrics (m : DSCRLoanModel) : Option LoanMetrics :=
  match m.finalLoanAmount with
  | none => none
  | some l => if l = 0 then none else some (m.metricsForLoan l)

end DSCRLoanModel

/-! ## Cap rate model (`src/models/cap_rate_model.py`) -/

/-- Lookup in an association-list embedding of a Python dict. -/
def dictGet {α : Type} (d : List (String × α)) (k : String) : Option α :=
  (d.find? (fun kv => kv.1 == k)).map (·.2)

/-- `CapRateModel` constructor fields.  The Python constructor lower-cases
`property_type` and `submarket_class` (see `mkCapRateModel`). -/
structure CapRateModel where
  property_type : String
  submarket_class : String
  risk_score : Option ℚ
  is_rent_controlled : Bool

/-- `CapRateModel.__init__`: lower-cases the two class strings
(`(property_type or "").lower()`). -/
def mkCapRateModel (property_type submarket_class : String)
    (risk_score : Option ℚ) (is_rent_controlled : Bool) : CapRateModel :=
  ⟨property_type.toLower, submarket_class.toLower, risk_score, is_rent_controlled⟩

namespace CapRateModel

/-- `_base_cap_rate_grid`: the 8-archetype × 5-tier dict of base cap rates. -/
def baseCapRateGrid : List (String × List (String × ℚ)) :=
  [("sfr", [("prime", 35/1000), ("core", 40/1000), ("stable", 425/10000),
            ("transitional", 45/1000), ("distressed", 50/1000)]),
   ("2-4", [("prime", 375/10000), ("core", 425/10000), ("stable", 45/1000),
            ("transitional", 475/10000), ("distressed", 525/10000)]),
   ("5+", [("prime", 40/1000), ("core", 45/1000), ("stable", 475/10000),
           ("transitional", 50/1000), ("distressed", 55/1000)]),
   ("mixed_use", [("prime", 425/10000), ("core", 475/10000), ("stable", 50/1000),
                  ("transitional", 525/10000), ("distressed", 575/10000)]),
   ("retail", [("prime", 45/1000), ("core", 50/1000), ("stable", 525/10000),
               ("transitional", 55/1000), ("distressed", 60/1000)]),
   ("office", [("prime", 50/1000), ("core", 55/1000), ("stable", 60/1000),
               ("transitional", 65/1000), ("distressed", 70/1000)]),
   ("industrial", [("prime", 40/1000), ("core", 45/1000), ("stable", 475/10000),
                   ("transitional", 50/1000), ("distressed", 55/1000)]),
   ("land", [("prime", 20/1000), ("core", 25/1000), ("stable", 30/1000),
             ("transitional", 35/1000), ("distressed", 40/1000)])]

/-- `base_cap_rate`: grid lookup with fallback of unrecognized archetypes to
`"5+"` and unrecognized tiers to `"stable"`.  After the fallbacks the lookups
cannot miss (every row has a `"stable"` entry), so the Python code's direct
indexing never raises; the `getD` defaults here are dead code. -/
def baseCapRate (m : CapRateModel) : ℚ :=
  let p_type := if (dictGet baseCapRateGrid m.property_type).isSome
                then m.property_type else "5+"
  let row := (dictGet baseCapRateGrid p_type).getD []
  let s_class := if (dictGet row m.submarket_class).isSome
                 then m.submarket_class else "stable"
  (dictGet row s_class).getD 0

/-- `_risk_adjustment_bps`: risk score clamped to [0,100], then banded. -/
def riskAdjustmentBps (risk_score : Option ℚ) : ℚ :=
  match risk_score with
  | none => 0
  | some s =>
    let rs := max 0 (min 100 s)
    if rs < 20 then -(1/1000)
    else if rs < 40 then -(1/2000)
    else if rs < 60 then 0
    else if rs < 80 then 1/500
    else 3/400

/-- `_rent_control_adjustment_bps`. -/
def rentControlAdjustmentBps (is_rent_controlled : Bool) (base_cap : ℚ) : ℚ :=
  if !is_rent_controlled then 0
  else if base_cap ≤ 4/100 then 3/1000
  else if base_cap ≤ 5/100 then 1/250
  else 1/200

/-- `adjusted_cap_rate`.  In the Python code `base_cap_rate` is annotated
`Optional` but never returns `None`, so the `if base is None` guard is dead
and the result is total. -/
def adjustedCapRate (m : CapRateModel) : ℚ :=
  roundTo 4 (m.baseCapRate + riskAdjustmentBps m.risk_score
    + rentControlAdjustmentBps m.is_rent_controlled m.baseCapRate)

end CapRateModel

/-! ## Weighted-average recommendation engine
(`src/models/recommendation_engine_2.py`) -/

/-- The parts of the `sales_comparison` input dict that `recommend` reads. -/
structure SalesCmpDict where
  success : Bool
  comp_value_estimate : Option ℚ
deriving DecidableEq

/-- The fields of the `RecommendationEngine` inputs that `recommend` reads:
`sales_comparison` (an optional dict), `valuation_summary["purchase_price"]`,
`cap_rate_summary["final_cap_rate"]`, `dscr_summary["meets_min_dscr"]`
(`none` embeds an absent key) and `cash_on_cash`. -/
structure REInput where
  sales_comparison : Option SalesCmpDict
  purchase_price : Option ℚ
  final_cap_rate : Option ℚ
  meets_min_dscr : Option Bool
  cash_on_cash : Option ℚ

namespace REInput

/-- Python truthiness of an optional float (`if not x`). -/
def truthyQ : Option ℚ → Bool
  | none => false
  | some x => !(x == 0)

/-- The `score` field of `_sales_comparison_score` (the dict it returns also
carries a textual rating and diagnostics; only the score feeds `recommend`).
Inactive (`none`) when the sales-comparison dict is absent/falsy, when
`success` is falsy, or when the comp value estimate or purchase price is
absent/zero. -/
def salesComparisonScore (inp : REInput) : Option ℚ :=
  match inp.sales_comparison with
  | none => none
  | some sc =>
    if !sc.success then none
    else if !(truthyQ sc.comp_value_estimate && truthyQ inp.purchase_price) then none
    else
      let mv := sc.comp_value_estimate.getD 0
      let pp := inp.purchase_price.getD 0
      let pct_diff := (mv - pp) / pp
      if pct_diff ≥ 1/5 then some 5
      else if pct_diff ≥ 1/10 then some 4
      else if pct_diff ≥ -(1/20) then some 3
      else if pct_diff ≥ -(3/20) then some 2
      else some 1

/-- The cap-rate component score in `recommend`. -/
def capScore (inp : REInput) : Option ℚ :=
  match inp.final_cap_rate with
  | none => none
  | some c => if c ≥ 6/100 then some 4 else if c ≥ 5/100 then some 3 else some 2

/-- `dscr_ok = self.dscr_summary.get("meets_min_dscr", False)`. -/
def dscrOk (inp : REInput) : Bool := inp.meets_min_dscr.getD false

/-- The DSCR component score in `recommend`: `4 if dscr_ok else 1`. -/
def dscrScore (inp : REInput) : ℚ := if inp.dscrOk then 4 else 1

/-- The cash-on-cash component score in `recommend`. -/
def cocScore (inp : REInput) : Option ℚ :=
  match inp.cash_on_cash with
  | none => none
  | some c =>
    if c ≥ 7/100 then some 4
    else if c ≥ 5/100 then some 3
    else if c ≥ 3/100 then some 2
    else some 1

/-- `all_scores = [s for s in [sales, cap, dscr, coc] if s is not None]`. -/
def allScores (inp : REInput) : List ℚ :=
  [inp.salesComparisonScore, inp.capScore, some inp.dscrScore, inp.cocScore].filterMap id

/-- `final_score = sum/len if all_scores else 0`. -/
def finalScore (inp : REInput) : ℚ :=
  if (inp.allScores).isEmpty then 0
  else (inp.allScores).sum / ((inp.allScores).length : ℚ)

/-- The final-rating thresholds of `recommend`. -/
def finalRating (fs : ℚ) : String :=
  if fs ≥ 21/5 then "BUY" else if fs ≥ 16/5 then "WATCH" else "PASS"

/-- The `final_recommendation` and `final_score` fields of the dict returned
by `recommend`. -/
structure RecResult where
  final_recommendation : String
  final_score : ℚ
deriving DecidableEq

/-- `recommend` (its decision and rounded score fields). -/
def recommend (inp : REInput) : RecResult :=
  ⟨finalRating inp.finalScore, roundTo 3 inp.finalScore⟩

end REInput

/-- Market-confidence level attached to the comparable-set analysis
(spec §4.4: `level ∈ \x7blow, medium, high\x7d`, or unknown/inactive). -/
inductive ConfidenceLevel
  | high
  | medium
  | low
  | unknown
deriving DecidableEq

/-- Modelled from the spec: the confidence-adjusted recommendation aggregator
variant (spec §4.5 and §9; its `market_confidence` output is consumed by
`src/reports/report_generator.py`) is not among the files under `src/`.
Its confidence adjustment is modelled from the spec's words:
"level high → +0.10, low → −0.20, medium/unknown → 0". -/
def confidenceAdjustment : ConfidenceLevel → ℚ
  | .high => 1/10
  | .low => -(1/5)
  | .medium => 0
  | .unknown => 0

/-- Modelled from the spec: `final_score = base_score + confidence_adjustment`
(spec §4.5), where `base_score` is the arithmetic mean of the present
component scores — i.e. the un-adjusted `final_score` of
`recommendation_engine_2.py`, embedded above as `REInput.finalScore`. -/
def finalScoreWithConfidence (inp : REInput) (lvl : ConfidenceLevel) : ℚ :=
  inp.finalScore + confidenceAdjustment lvl

/-! ## Sales comparison model (`src/models/sales_comp_model.py`) -/

/-- The subject dict handed to `SalesCompModel`. -/
structure RawSubject where
  beds : Option ℚ
  baths : Option ℚ
  sqft : Option ℚ
  num_units : Option ℤ
  property_type : Option String

/-- The dict produced by `_normalize_subject`. -/
structure SalesSubject where
  beds : Option ℚ
  baths : Option ℚ
  sqft : Option ℚ
  num_units : ℤ
  property_type : String

/-- `_normalize_subject`: `num_units = int(subject.get("num_units") or 1)`
(so an absent *or zero* unit count becomes 1) and
`property_type = (subject.get("property_type") or "").lower() or "unknown"`. -/
def normalizeSubject (s : RawSubject) : SalesSubject :=
  ⟨s.beds, s.baths, s.sqft,
    (match s.num_units with
     | none => 1
     | some u => if u = 0 then 1 else u),
    (let p := (s.property_type.getD "").toLower
     if p = "" then "unknown" else p)⟩

/-- A comparable-sale dict as `SalesCompModel` reads it. -/
structure RawComp where
  price : Option ℚ
  sqft : Option ℚ
  beds : Option ℚ
  baths : Option ℚ
  num_units : Option ℤ
  distance_miles : Option ℚ
  property_type : Option String

/-- `SalesCompModel` constructor fields (defaults: max distance 2.0 miles,
sqft-ratio band [0.5, 1.5], target comp count 6). -/
structure SalesCompModel where
  subject : RawSubject
  comps : List RawComp
  max_distance_miles : ℚ
  min_sqft_ratio : ℚ
  max_sqft_ratio : ℚ
  target_comp_count : ℕ

namespace SalesCompModel

/-- The predicate of `_filter_comps`: a comp is kept when it has a truthy
price and sqft, is within the distance cap (when a distance is known) and,
when the subject sqft is truthy, has a sqft ratio inside the band. -/
def keepComp (m : SalesCompModel) (c : RawComp) : Bool :=
  if !(REInput.truthyQ c.price && REInput.truthyQ c.sqft) then false
  else if (match c.distance_miles with
           | none => false
           | some d => decide (d > m.max_distance_miles)) then false
  else
    match (normalizeSubject m.subject).sqft, c.sqft with
    | some ss, some cs =>
      if ss ≠ 0 ∧ cs ≠ 0 then
        !(decide (cs / ss < m.min_sqft_ratio) || decide (cs / ss > m.max_sqft_ratio))
      else true
    | _, _ => true

/-- `_filter_comps`. -/
def filterComps (m : SalesCompModel) : List RawComp :=
  m.comps.filter m.keepComp

/-- The dict produced by `_normalize_comp`: the comp plus
`price_per_sqft`, `price_per_unit` and `similarity_score`. -/
structure NormalizedComp where
  comp : RawComp
  price_per_sqft : Option ℚ
  price_per_unit : Option ℚ
  similarity_score : ℚ

/-- `_normalize_comp`. -/
def normalizeComp (m : SalesCompModel) (c : RawComp) : NormalizedComp :=
  let subj := normalizeSubject m.subject
  let price := c.price.getD 0
  let sqft := c.sqft.getD 0
  let units : ℤ := match c.num_units with
    | none => 1
    | some u => if u = 0 then 1 else u
  let distance := c.distance_miles.getD 0
  let prop_type := (c.property_type.getD "").toLower
  let ppsf : Option ℚ := if sqft > 0 then some (price / sqft) else none
  let ppu : Option ℚ := if units > 0 then some (price / (units : ℚ)) else none
  let score0 : ℚ := 100
  let score1 := match subj.beds, c.beds with
    | some sb, some cb => score0 - |cb - sb| * 5
    | _, _ => score0
  let score2 := match subj.baths, c.baths with
    | some sb, some cb => score1 - |cb - sb| * 4
    | _, _ => score1
  let score3 := match subj.sqft with
    | some ss => if ss ≠ 0 ∧ sqft ≠ 0 then score2 - |1 - sqft / ss| * 30 else score2
    | none => score2
  let score4 := if subj.num_units ≠ 0 ∧ units ≠ 0
                then score3 - ((units - subj.num_units).natAbs : ℚ) * 3
                else score3
  let score5 := if subj.property_type ≠ "unknown" ∧ prop_type ≠ ""
                   ∧ subj.property_type ≠ prop_type
                then score4 - 10 else score4
  let score6 := score5 - min distance 5 * 2
  ⟨c, ppsf, ppu, max 0 (min 100 score6)⟩

/-- `_normalized_comps`: filter, normalize, stable-sort by similarity score
descending, trim to `target_comp_count`. -/
def normalizedComps (m : SalesCompModel) : List NormalizedComp :=
  (((m.filterComps).map m.normalizeComp).mergeSort
    (fun a b => decide (b.similarity_score ≤ a.similarity_score))).take m.target_comp_count

/-- Ascending sort (`sorted(values)`). -/
def sortAsc (l : List ℚ) : List ℚ := l.mergeSort (fun a b => decide (a ≤ b))

/-- `statistics.median` of an already sorted non-empty list. -/
def medianSorted (s : List ℚ) : ℚ :=
  let n := s.length
  if n % 2 = 1 then s.getD (n / 2) 0
  else (s.getD (n / 2 - 1) 0 + s.getD (n / 2) 0) / 2

/-- The median/low/high triple returned by `_ppsf_stats` / `_ppu_stats`. -/
structure BandStats where
  median : Option ℚ
  low : Option ℚ
  high : Option ℚ
deriving DecidableEq

/-- The common body of `_ppsf_stats` and `_ppu_stats` on the extracted value
list: all-`none` on an empty list, else median plus the "low"/"high" bands
`values_sorted[max(0, int(n*0.20) - 1)]` and
`values_sorted[min(n - 1, int(n*0.80))]`.  Over exact arithmetic
`int(n*0.20) = n / 5` and `int(n*0.80) = n * 4 / 5` (ℕ division), and the
`max(0, ·)` clamp is ℕ truncated subtraction; both indices are in range for a
non-empty list, so `getD`'s default is dead code. -/
def bandStats (values : List ℚ) : BandStats :=
  if values.isEmpty then ⟨none, none, none⟩
  else
    let s := sortAsc values
    let n := s.length
    ⟨some (medianSorted s),
     some (s.getD (n / 5 - 1) 0),
     some (s.getD (min (n - 1) (n * 4 / 5)) 0)⟩

/-- The truthy-value extraction `[v for v in l if v]` shared by the stats and
the candidate lists in `summary`. -/
def truthyVals (l : List (Option ℚ)) : List ℚ :=
  l.filterMap (fun v => match v with
    | some x => if x = 0 then none else some x
    | none => none)

/-- `_ppsf_stats`. -/
def ppsfStats (comps : List NormalizedComp) : BandStats :=
  bandStats (truthyVals (comps.map (·.price_per_sqft)))

/-- `_ppu_stats`. -/
def ppuStats (comps : List NormalizedComp) : BandStats :=
  bandStats (truthyVals (comps.map (·.price_per_unit)))

/-- `_subject_value_from_ppsf`: `None` when the rate is `None` or the subject
sqft is falsy. -/
def subjectValueFromPpsf (m : SalesCompModel) (ppsf : Option ℚ) : Option ℚ :=
  match ppsf, (normalizeSubject m.subject).sqft with
  | some p, some s => if s = 0 then none else some (p * s)
  | _, _ => none

/-- `_subject_value_from_ppu`. -/
def subjectValueFromPpu (m : SalesCompModel) (ppu : Option ℚ) : Option ℚ :=
  match ppu with
  | none => none
  | some p =>
    let units := (normalizeSubject m.subject).num_units
    if units ≤ 0 then none else some (p * (units : ℚ))

/-- The stats and value-estimate fields of the dict returned by `summary`. -/
structure SalesSummary where
  median_ppsf : Option ℚ
  low_ppsf : Option ℚ
  high_ppsf : Option ℚ
  median_ppu : Option ℚ
  low_ppu : Option ℚ
  high_ppu : Option ℚ
  value_by_ppsf_median : Option ℚ
  value_by_ppu_median : Option ℚ
  base_value : Option ℚ
  low_value : Option ℚ
  high_value : Option ℚ
deriving DecidableEq

/-- `summary`: normalized comps, rate statistics and the subject value
estimates (base = mean of the truthy per-area/per-unit medians, low/high =
min/max over the truthy low/high candidates). -/
def summary (m : SalesCompModel) : SalesSummary :=
  let comps_norm := m.normalizedComps
  let ps := ppsfStats comps_norm
  let pu := ppuStats comps_norm
  let v_ppsf := m.subjectValueFromPpsf ps.median
  let v_ppu := m.subjectValueFromPpu pu.median
  let base_candidates := truthyVals [v_ppsf, v_ppu]
  let base_value : Option ℚ :=
    if base_candidates.isEmpty then none
    else some (base_candidates.sum / (base_candidates.length : ℚ))
  let low_candidates := truthyVals
    [m.subjectValueFromPpsf ps.low, m.subjectValueFromPpu pu.low]
  let high_candidates := truthyVals
    [m.subjectValueFromPpsf ps.high, m.subjectValueFromPpu pu.high]
  ⟨ps.median, ps.low, ps.high, pu.median, pu.low, pu.high,
    v_ppsf, v_ppu, base_value, low_candidates.min?, high_candidates.max?⟩

end SalesCompModel

/-! ## Helper lemmas -/

theorem ratFloor_eq_floor (q : ℚ) : ratFloor q = ⌊q⌋ := Rat.floor_def.symm

theorem roundHalfEven_intCast (z : ℤ) : roundHalfEven (z : ℚ) = z := by
  have hf : ratFloor (z : ℚ) = z := by
    rw [ratFloor_eq_floor]; exact Int.floor_intCast z
  simp [roundHalfEven, hf]

/-- Evaluation rule for `roundHalfEven` when the value sits strictly below
the halfway point of its cell. -/
theorem roundHalfEven_eq_down (z : ℤ) (q : ℚ) (h1 : (z:ℚ) ≤ q) (h2 : q - z < 1/2) :
    roundHalfEven q = z := by
  have hf : ratFloor q = z := by
    rw [ratFloor_eq_floor, Int.floor_eq_iff]
    constructor
    · exact h1
    · linarith
  rw [roundHalfEven, hf, if_pos h2]

/-- Evaluation rule for `roundHalfEven` when the value sits strictly above
the halfway point of its cell. -/
theorem roundHalfEven_eq_up (z : ℤ) (q : ℚ) (h1 : 1/2 < q - z) (h2 : q < z + 1) :
    roundHalfEven q = z + 1 := by
  have hz : (z:ℚ) ≤ q := by linarith
  have hf : ratFloor q = z := by
    rw [ratFloor_eq_floor, Int.floor_eq_iff]
    constructor
    · exact hz
    · linarith
  rw [roundHalfEven, hf, if_neg (by linarith), if_pos h1]

/-- Evaluation rule for `roundTo` on a value that is exact at the k-th
decimal place. -/
theorem roundTo_eq_int (k : ℕ) (z : ℤ) (q : ℚ) (h : q * 10 ^ k = z) :
    roundTo k q = z / 10 ^ k := by
  rw [roundTo, h, roundHalfEven_intCast]

/-- Evaluation rule for `roundTo` rounding down. -/
theorem roundTo_eq_down (k : ℕ) (z : ℤ) (q : ℚ)
    (h1 : (z:ℚ) ≤ q * 10 ^ k) (h2 : q * 10 ^ k - z < 1/2) :
    roundTo k q = z / 10 ^ k := by
  rw [roundTo, roundHalfEven_eq_down z _ h1 h2]

/-- Evaluation rule for `roundTo` rounding up. -/
theorem roundTo_eq_up (k : ℕ) (z : ℤ) (q : ℚ)
    (h1 : 1/2 < q * 10 ^ k - z) (h2 : q * 10 ^ k < z + 1) :
    roundTo k q = (z + 1) / 10 ^ k := by
  rw [roundTo, roundHalfEven_eq_up z _ h1 h2]
  push_cast
  ring_nf

theorem roundHalfEven_mono {x y : ℚ} (h : x ≤ y) :
    roundHalfEven x ≤ roundHalfEven y := by
  have hfx : ((ratFloor x : ℤ) : ℚ) ≤ x := by
    rw [ratFloor_eq_floor]; exact Int.floor_le x
  have hfy : ((ratFloor y : ℤ) : ℚ) ≤ y := by
    rw [ratFloor_eq_floor]; exact Int.floor_le y
  have hx1 : x < (ratFloor x : ℚ) + 1 := by
    rw [ratFloor_eq_floor]; exact_mod_cast Int.lt_floor_add_one x
  have hy1 : y < (ratFloor y : ℚ) + 1 := by
    rw [ratFloor_eq_floor]; exact_mod_cast Int.lt_floor_add_one y
  have hmono : ratFloor x ≤ ratFloor y := by
    rw [ratFloor_eq_floor, ratFloor_eq_floor]
    exact Int.floor_le_floor h
  rcases lt_or_eq_of_le hmono with hlt | heq
  · -- distinct floors: the left value rounds to at most `ratFloor x + 1 ≤ ratFloor y`
    have hxub : roundHalfEven x ≤ ratFloor x + 1 := by
      unfold roundHalfEven; split_ifs <;> omega
    have hylb : ratFloor y ≤ roundHalfEven y := by
      unfold roundHalfEven; split_ifs <;> omega
    omega
  · -- equal floors: compare fractional parts within one cell
    have hcast : ((ratFloor x : ℤ) : ℚ) = ((ratFloor y : ℤ) : ℚ) := by rw [heq]
    have hfrac : x - ratFloor x ≤ y - ratFloor y := by
      rw [← hcast]; linarith
    unfold roundHalfEven
    split_ifs <;> first | omega | linarith [hfrac]

theorem roundTo_mono (k : ℕ) {x y : ℚ} (h : x ≤ y) : roundTo k x ≤ roundTo k y := by
  have hp : (0:ℚ) < 10 ^ k := by positivity
  have hm : x * 10 ^ k ≤ y * 10 ^ k := by nlinarith
  have := roundHalfEven_mono hm
  unfold roundTo
  exact div_le_div_of_nonneg_right (by exact_mod_cast this) hp.le

/-! ## Claim theorems -/

/-- C1: Annuity round-trip: for a positive amortization term, feeding the
forward payment back into the inverse annuity formula recovers the loan
exactly, `loanFromAnnualDebtService (paymentForLoan L * 12) = L`; this covers
every loan amount and every interest rate, in particular the claimed case
`L > 0`, monthly rate `> 0`, and the straight-line degradation when the rate
is ≤ 0, which also round-trips. -/
theorem annuity_roundtrip (m : DSCRLoanModel) (h : 0 < m.amort_years) (L : ℚ) :
    m.loanFromAnnualDebtService (m.paymentForLoan L * 12) = L := by
  have hn0 : m.numPayments ≠ 0 := by
    simp only [DSCRLoanModel.numPayments]; omega
  have hn : ((m.numPayments : ℚ)) ≠ 0 := Nat.cast_ne_zero.mpr hn0
  by_cases hr : m.monthlyRate ≤ 0
  · simp only [DSCRLoanModel.paymentForLoan, DSCRLoanModel.loanFromAnnualDebtService,
      if_pos hr]
    field_simp
    ring
  · simp only [DSCRLoanModel.paymentForLoan, DSCRLoanModel.loanFromAnnualDebtService,
      if_neg hr]
    push_neg at hr
    have h1 : (1:ℚ) < 1 + m.monthlyRate := by linarith
    have hpow : (1:ℚ) < (1 + m.monthlyRate) ^ m.numPayments := one_lt_pow₀ h1 hn0
    have hd1 : (1 + m.monthlyRate) ^ m.numPayments - 1 ≠ 0 := by
      have : (0:ℚ) < (1 + m.monthlyRate) ^ m.numPayments - 1 := by linarith
      exact ne_of_gt this
    have hr0 : m.monthlyRate ≠ 0 := ne_of_gt hr
    have hpow0 : (1 + m.monthlyRate) ^ m.numPayments ≠ 0 := by positivity
    field_simp
    ring

/-- Witness for C1 at the spec's scenario-B inputs
(noi 120000, price 1800000, rate 0.065, 30 years, min DSCR 1.20,
max LTV 0.75) and loan amount 1350000. -/
theorem annuity_roundtrip_witness :
    0 < (⟨120000, 1800000, 65/1000, 30, 6/5, 3/4⟩ : DSCRLoanModel).amort_years ∧
    (⟨120000, 1800000, 65/1000, 30, 6/5, 3/4⟩ : DSCRLoanModel).loanFromAnnualDebtService
      ((⟨120000, 1800000, 65/1000, 30, 6/5, 3/4⟩ : DSCRLoanModel).paymentForLoan 1350000 * 12)
      = 1350000 :=
  ⟨by decide, annuity_roundtrip _ (by decide) 1350000⟩

/-- C2: `loan_by_dscr` is "not computed" exactly when `min_dscr ≤ 0` or
`noi ≤ 0`; `loan_by_ltv` is "not computed" exactly when `max_ltv ≤ 0` or
`purchase_price ≤ 0` and otherwise equals `purchase_price * max_ltv`; and
`final_loan_amount` is the min of the two bounds when both are defined, the
one defined bound when only one is, and "not computed" when neither is. -/
theorem debt_sizing_definedness (m : DSCRLoanModel) :
    (m.loanByDscr = none ↔ m.min_dscr ≤ 0 ∨ m.noi ≤ 0) ∧
    (m.loanByLtv = none ↔ m.max_ltv ≤ 0 ∨ m.purchase_price ≤ 0) ∧
    (¬(m.max_ltv ≤ 0 ∨ m.purchase_price ≤ 0) →
      m.loanByLtv = some (m.purchase_price * m.max_ltv)) ∧
    (∀ a b, m.loanByDscr = some a → m.loanByLtv = some b →
      m.finalLoanAmount = some (min a b)) ∧
    (m.loanByDscr = none → m.finalLoanAmount = m.loanByLtv) ∧
    (m.loanByLtv = none → m.finalLoanAmount = m.loanByDscr) := by
  refine ⟨?_, ?_, ?_, ?_, ?_, ?_⟩
  · simp only [DSCRLoanModel.loanByDscr]; split_ifs with h <;> simp [h]
  · simp only [DSCRLoanModel.loanByLtv]; split_ifs with h <;> simp [h]
  · intro h; simp [DSCRLoanModel.loanByLtv, h]
  · intro a b ha hb; simp [DSCRLoanModel.finalLoanAmount, ha, hb]
  · intro h
    cases hx : m.loanByLtv <;> simp [DSCRLoanModel.finalLoanAmount, h, hx]
  · intro h
    cases hx : m.loanByDscr <;> simp [DSCRLoanModel.finalLoanAmount, h, hx]

/-- Witness for C2: with noi 1200, price 1000, zero rate, 1-year term,
min DSCR 1 and max LTV 1/2, both bounds are defined
(1200 by DSCR, 500 by LTV) and the final loan is their min. -/
theorem debt_sizing_definedness_witness :
    (⟨1200, 1000, 0, 1, 1, 1/2⟩ : DSCRLoanModel).finalLoanAmount = some (min 1200 500) :=
  (debt_sizing_definedness _).2.2.2.1 1200 500
    (by norm_num [DSCRLoanModel.loanByDscr, DSCRLoanModel.loanFromAnnualDebtService,
      DSCRLoanModel.monthlyRate, DSCRLoanModel.numPayments])
    (by norm_num [DSCRLoanModel.loanByLtv])

theorem riskAdjustmentBps_mono {s t : ℚ} (h : s ≤ t) :
    CapRateModel.riskAdjustmentBps (some s) ≤ CapRateModel.riskAdjustmentBps (some t) := by
  simp only [CapRateModel.riskAdjustmentBps]
  have hc : max 0 (min 100 s) ≤ max 0 (min 100 t) :=
    max_le_max le_rfl (min_le_min le_rfl h)
  split_ifs <;> linarith

/-- C3: the final cap rate is `round(base + risk_adj + rent_control_adj, 4)`
for every model; unrecognized archetypes fall back to `"5+"` and unrecognized
tiers to `"stable"`; and in scenario A (archetype `"5+"`, tier `"stable"`,
risk score 50, not rent-controlled) the base rate is 0.0475, both adjustments
are 0 and the final rate is 0.0475. -/
theorem cap_rate_composition :
    (∀ m : CapRateModel, m.adjustedCapRate
        = roundTo 4 (m.baseCapRate + CapRateModel.riskAdjustmentBps m.risk_score
            + CapRateModel.rentControlAdjustmentBps m.is_rent_controlled m.baseCapRate)) ∧
    (∀ m : CapRateModel, dictGet CapRateModel.baseCapRateGrid m.property_type = none →
        m.baseCapRate = CapRateModel.baseCapRate
          ⟨"5+", m.submarket_class, m.risk_score, m.is_rent_controlled⟩) ∧
    (∀ (m : CapRateModel) (row : List (String × ℚ)),
        dictGet CapRateModel.baseCapRateGrid m.property_type = some row →
        dictGet row m.submarket_class = none →
        m.baseCapRate = CapRateModel.baseCapRate
          ⟨m.property_type, "stable", m.risk_score, m.is_rent_controlled⟩) ∧
    (CapRateModel.baseCapRate ⟨"5+", "stable", some 50, false⟩ = 475/10000 ∧
     CapRateModel.riskAdjustmentBps (some 50) = 0 ∧
     CapRateModel.rentControlAdjustmentBps false (475/10000) = 0 ∧
     CapRateModel.adjustedCapRate ⟨"5+", "stable", some 50, false⟩ = 475/10000) := by
  refine ⟨fun m => rfl, ?_, ?_, ?_, ?_, ?_, ?_⟩
  · intro m h
    simp [CapRateModel.baseCapRate, h]
  · intro m row h1 h2
    simp [CapRateModel.baseCapRate, h1, h2]
  · simp [CapRateModel.baseCapRate, dictGet, CapRateModel.baseCapRateGrid]
  · norm_num [CapRateModel.riskAdjustmentBps]
  · norm_num [CapRateModel.rentControlAdjustmentBps]
  · have hbase : CapRateModel.baseCapRate ⟨"5+", "stable", some 50, false⟩ = 475/10000 := by
      simp [CapRateModel.baseCapRate, dictGet, CapRateModel.baseCapRateGrid]
    have hrisk : CapRateModel.riskAdjustmentBps (some 50) = 0 := by
      norm_num [CapRateModel.riskAdjustmentBps]
    have hrc : CapRateModel.rentControlAdjustmentBps false (475/10000) = 0 := by
      norm_num [CapRateModel.rentControlAdjustmentBps]
    rw [CapRateModel.adjustedCapRate, hbase, hrisk, hrc]
    have h475 : (475/10000 : ℚ) + 0 + 0 = 475/10000 := by norm_num
    rw [h475, roundTo_eq_int 4 475 _ (by norm_num)]
    norm_num

/-- Witness for C3: the fallback branches fire on a concrete unrecognized
archetype (`"warehouse"`) and a concrete unrecognized tier (`"weird"`). -/
theorem cap_rate_composition_witness :
    CapRateModel.baseCapRate ⟨"warehouse", "stable", none, false⟩
      = CapRateModel.baseCapRate ⟨"5+", "stable", none, false⟩ ∧
    CapRateModel.baseCapRate ⟨"sfr", "weird", none, false⟩
      = CapRateModel.baseCapRate ⟨"sfr", "stable", none, false⟩ :=
  ⟨cap_rate_composition.2.1 ⟨"warehouse", "stable", none, false⟩ (by decide),
   cap_rate_composition.2.2.1 ⟨"sfr", "weird", none, false⟩
     [("prime", 35/1000), ("core", 40/1000), ("stable", 425/10000),
      ("transitional", 45/1000), ("distressed", 50/1000)]
     (by simp [dictGet, CapRateModel.baseCapRateGrid]) (by decide)⟩

/-- C7: for a fixed archetype, tier and rent-control flag the final cap rate
is non-decreasing in the risk score (hence across the band boundaries 19→20,
39→40, 59→60, 79→80); an absent score contributes 0; scores are clamped to
[0,100] (so −5 lands in the lowest band and 150 in the highest); and the five
bands yield −10, −5, 0, +20 and +75 basis points. -/
theorem cap_rate_risk_mono :
    (∀ (pt sc : String) (flag : Bool) (s t : ℚ), s ≤ t →
      CapRateModel.adjustedCapRate ⟨pt, sc, some s, flag⟩
        ≤ CapRateModel.adjustedCapRate ⟨pt, sc, some t, flag⟩) ∧
    CapRateModel.riskAdjustmentBps none = 0 ∧
    (CapRateModel.riskAdjustmentBps (some (-5)) = -(1/1000) ∧
     CapRateModel.riskAdjustmentBps (some 19) = -(1/1000) ∧
     CapRateModel.riskAdjustmentBps (some 20) = -(1/2000) ∧
     CapRateModel.riskAdjustmentBps (some 39) = -(1/2000) ∧
     CapRateModel.riskAdjustmentBps (some 40) = 0 ∧
     CapRateModel.riskAdjustmentBps (some 59) = 0 ∧
     CapRateModel.riskAdjustmentBps (some 60) = 1/500 ∧
     CapRateModel.riskAdjustmentBps (some 79) = 1/500 ∧
     CapRateModel.riskAdjustmentBps (some 80) = 3/400 ∧
     CapRateModel.riskAdjustmentBps (some 150) = 3/400) := by
  refine ⟨?_, rfl, ?_, ?_, ?_, ?_, ?_, ?_, ?_, ?_, ?_, ?_⟩
  · intro pt sc flag s t h
    simp only [CapRateModel.adjustedCapRate]
    apply roundTo_mono
    have hadj := riskAdjustmentBps_mono h
    have hb : CapRateModel.baseCapRate ⟨pt, sc, some s, flag⟩
        = CapRateModel.baseCapRate ⟨pt, sc, some t, flag⟩ := rfl
    simp only [hb]
    linarith [hadj]
  all_goals norm_num [CapRateModel.riskAdjustmentBps]

/-- Witness for C7 across the 19→20 band boundary at archetype `"5+"`,
tier `"stable"`, no rent control. -/
theorem cap_rate_risk_mono_witness :
    (19:ℚ) ≤ 20 ∧
    CapRateModel.adjustedCapRate ⟨"5+", "stable", some 19, false⟩
      ≤ CapRateModel.adjustedCapRate ⟨"5+", "stable", some 20, false⟩ :=
  ⟨by norm_num, cap_rate_risk_mono.1 "5+" "stable" false 19 20 (by norm_num)⟩

/-- The DSCR component score is unconditionally present, so the component
list of `recommend` is never empty. -/
theorem REInput.allScores_ne_nil (inp : REInput) : inp.allScores ≠ [] := by
  rcases h1 : inp.salesComparisonScore with _ | a <;>
    rcases h2 : inp.capScore with _ | b <;>
      rcases h3 : inp.cocScore with _ | c <;>
        simp [REInput.allScores, h1, h2, h3]

/-- C4: for every input, the decision of `recommend` is BUY when the final
score is ≥ 4.2, WATCH when it is ≥ 3.2 (and < 4.2), and PASS otherwise; in
particular a final score of exactly 4.2 rates BUY and 4.199999 rates WATCH. -/
theorem recommendation_thresholds :
    (∀ inp : REInput, (REInput.recommend inp).final_recommendation =
      if inp.finalScore ≥ 21/5 then "BUY"
      else if inp.finalScore ≥ 16/5 then "WATCH" else "PASS") ∧
    REInput.finalRating (21/5) = "BUY" ∧
    REInput.finalRating (4199999/1000000) = "WATCH" := by
  refine ⟨fun inp => rfl, ?_, ?_⟩
  · rw [REInput.finalRating, if_pos (by norm_num)]
  · rw [REInput.finalRating, if_neg (by norm_num), if_pos (by norm_num)]

/-- C5: in the market-confidence-adjusted aggregator (modelled from the spec,
see `confidenceAdjustment`), the final score is the base score — the mean of
the present component scores computed by `recommendation_engine_2.py` — plus
+0.10 for a high confidence level, −0.20 for low, and 0 for medium or
unknown. -/
theorem confidence_adjustment_spec :
    (∀ (inp : REInput) (lvl : ConfidenceLevel),
      finalScoreWithConfidence inp lvl = inp.finalScore + confidenceAdjustment lvl) ∧
    confidenceAdjustment ConfidenceLevel.high = 1/10 ∧
    confidenceAdjustment ConfidenceLevel.low = -(1/5) ∧
    confidenceAdjustment ConfidenceLevel.medium = 0 ∧
    confidenceAdjustment ConfidenceLevel.unknown = 0 :=
  ⟨fun _ _ => rfl, rfl, rfl, rfl, rfl⟩

/-- C10: the DSCR component score is always present — 1 when the
`meets_min_dscr` key is absent (default `False`), and in general 4 or 1 by
the flag's truthiness — so the component list is never empty, the degenerate
`base_score = 0` branch is unreachable, and the engine always answers BUY,
WATCH or PASS. -/
theorem dscr_score_always_present :
    (∀ inp : REInput, inp.meets_min_dscr = none → REInput.dscrScore inp = 1) ∧
    (∀ inp : REInput, REInput.dscrScore inp = if REInput.dscrOk inp then 4 else 1) ∧
    (∀ inp : REInput, inp.allScores ≠ []) ∧
    (∀ inp : REInput,
      inp.finalScore = (inp.allScores).sum / ((inp.allScores).length : ℚ)) ∧
    (∀ inp : REInput,
      (REInput.recommend inp).final_recommendation = "BUY" ∨
      (REInput.recommend inp).final_recommendation = "WATCH" ∨
      (REInput.recommend inp).final_recommendation = "PASS") := by
  refine ⟨?_, fun inp => rfl, REInput.allScores_ne_nil, ?_, ?_⟩
  · intro inp h
    simp [REInput.dscrScore, REInput.dscrOk, h]
  · intro inp
    have h := REInput.allScores_ne_nil inp
    rw [REInput.finalScore, if_neg (by simpa using h)]
  · intro inp
    simp only [REInput.recommend]
    rw [REInput.finalRating]
    split_ifs <;> simp

/-- Witness for C10: with every input field absent, the DSCR score is 1. -/
theorem dscr_score_always_present_witness :
    REInput.dscrScore ⟨none, none, none, none, none⟩ = 1 :=
  dscr_score_always_present.1 ⟨none, none, none, none, none⟩ rfl

/-- C6 counterexample: for the five sorted rate values 1..5 the code's "low"
band is `values_sorted[max(0, int(5*0.20) - 1)] = values_sorted[0] = 1`,
whereas the element at the claimed index `floor(5*0.20) = 1` is 2 — so the
low band is *not* the element at index `floor(n*0.20)`. -/
theorem percentile_low_band_counterexample :
    SalesCompModel.bandStats [1, 2, 3, 4, 5] = ⟨some 3, some 1, some 5⟩ ∧
    (5 * 20 / 100 : ℕ) = 1 ∧
    [(1:ℚ), 2, 3, 4, 5].getD 1 0 = 2 ∧
    (1 : ℚ) ≠ 2 := by
  have hsort : SalesCompModel.sortAsc [1, 2, 3, 4, 5] = [1, 2, 3, 4, 5] :=
    List.mergeSort_of_sorted (by decide)
  refine ⟨?_, rfl, by decide, by norm_num⟩
  simp only [SalesCompModel.bandStats, SalesCompModel.sortAsc] at hsort ⊢
  rw [hsort]
  norm_num [SalesCompModel.medianSorted]

/-- C6 amended: the "low" band is the element at index
`max(0, floor(n*0.20) - 1)` — not `floor(n*0.20)` — of the sorted value list,
and the "high" band the element at index `min(n - 1, floor(n*0.80))`, for the
per-area and per-unit statistics alike (both call the same banding); over
exact arithmetic `floor(n*0.20) = n / 5` and `floor(n*0.80) = n * 4 / 5` in ℕ
division, with ℕ truncated subtraction as the `max(0, ·)` clamp. -/
theorem percentile_band_indexing_amended (values : List ℚ) (h : values ≠ []) :
    SalesCompModel.bandStats values =
      ⟨some (SalesCompModel.medianSorted (SalesCompModel.sortAsc values)),
       some ((SalesCompModel.sortAsc values).getD (values.length / 5 - 1) 0),
       some ((SalesCompModel.sortAsc values).getD
         (min (values.length - 1) (values.length * 4 / 5)) 0)⟩ := by
  cases values with
  | nil => exact absurd rfl h
  | cons a l =>
    simp [SalesCompModel.bandStats, SalesCompModel.sortAsc, List.length_mergeSort]

/-- Witness for C6's amended statement on the concrete value list 1..5. -/
theorem percentile_band_indexing_amended_witness :
    ([(1:ℚ), 2, 3, 4, 5] ≠ ([] : List ℚ)) ∧
    SalesCompModel.bandStats [1, 2, 3, 4, 5] =
      ⟨some (SalesCompModel.medianSorted (SalesCompModel.sortAsc [1, 2, 3, 4, 5])),
       some ((SalesCompModel.sortAsc [1, 2, 3, 4, 5]).getD
         ([(1:ℚ), 2, 3, 4, 5].length / 5 - 1) 0),
       some ((SalesCompModel.sortAsc [1, 2, 3, 4, 5]).getD
         (min ([(1:ℚ), 2, 3, 4, 5].length - 1) ([(1:ℚ), 2, 3, 4, 5].length * 4 / 5)) 0)⟩ :=
  ⟨by simp, percentile_band_indexing_amended [1, 2, 3, 4, 5] (by simp)⟩

/-- C8: whenever no comp survives `_filter_comps` (in particular for the
empty comp list), `summary` still returns normally — the embedding is a total
function — with every rate statistic and every value-estimate field `none`
rather than a sentinel number. -/
theorem insufficient_comps_degradation (m : SalesCompModel) (h : m.filterComps = []) :
    m.summary = ⟨none, none, none, none, none, none, none, none, none, none, none⟩ := by
  have hnorm : m.normalizedComps = [] := by
    simp [SalesCompModel.normalizedComps, h]
  cases hs : (normalizeSubject m.subject).sqft <;>
    simp [SalesCompModel.summary, hnorm, SalesCompModel.ppsfStats, SalesCompModel.ppuStats,
      SalesCompModel.bandStats, SalesCompModel.truthyVals, SalesCompModel.subjectValueFromPpsf,
      SalesCompModel.subjectValueFromPpu, hs]

/-- Witness for C8 with an empty comp list and an all-absent subject. -/
theorem insufficient_comps_degradation_witness :
    SalesCompModel.summary ⟨⟨none, none, none, none, none⟩, [], 2, 1/2, 3/2, 6⟩ =
      ⟨none, none, none, none, none, none, none, none, none, none, none⟩ :=
  insufficient_comps_degradation ⟨⟨none, none, none, none, none⟩, [], 2, 1/2, 3/2, 6⟩ rfl

/-- Evaluation of `loan_by_dscr` at the C9 counterexample model
(noi 100.06, price 1000000, zero rate, 1-year term, min DSCR 1,
max LTV 0.75). -/
theorem m9_loanByDscr :
    (⟨5003/50, 1000000, 0, 1, 1, 3/4⟩ : DSCRLoanModel).loanByDscr = some (5003/50) := by
  rw [DSCRLoanModel.loanByDscr, if_neg (by norm_num)]
  rw [DSCRLoanModel.loanFromAnnualDebtService,
    if_pos (by norm_num [DSCRLoanModel.monthlyRate])]
  norm_num [DSCRLoanModel.numPayments]

/-- Evaluation of `loan_by_ltv` at the C9 counterexample model. -/
theorem m9_loanByLtv :
    (⟨5003/50, 1000000, 0, 1, 1, 3/4⟩ : DSCRLoanModel).loanByLtv = some 750000 := by
  rw [DSCRLoanModel.loanByLtv, if_neg (by norm_num)]
  norm_num

/-- Evaluation of `final_loan_amount` at the C9 counterexample model: the
DSCR bound 100.06 binds against the LTV bound 750000. -/
theorem m9_finalLoan :
    (⟨5003/50, 1000000, 0, 1, 1, 3/4⟩ : DSCRLoanModel).finalLoanAmount = some (5003/50) := by
  simp only [DSCRLoanModel.finalLoanAmount, m9_loanByDscr, m9_loanByLtv]
  norm_num [min_def]

/-- Evaluation of the monthly payment at the C9 counterexample model's final
loan: 100.06 / 12 = 8.338333…. -/
theorem m9_payment :
    (⟨5003/50, 1000000, 0, 1, 1, 3/4⟩ : DSCRLoanModel).paymentForLoan (5003/50)
      = 5003/600 := by
  rw [DSCRLoanModel.paymentForLoan, if_pos (by norm_num [DSCRLoanModel.monthlyRate])]
  norm_num [DSCRLoanModel.numPayments]

/-- C9 counterexample: at noi 100.06, zero rate, 1-year term, the computed
summary reports monthly_payment 8.34 (= round2(8.338333…)) and
annual_debt_service 100.06 (= round2(8.338333… × 12)), and
8.34 × 12 = 100.08 ≠ 100.06 — the reported annual debt service is *not* the
reported monthly payment times 12. -/
theorem reported_ads_counterexample :
    ((⟨5003/50, 1000000, 0, 1, 1, 3/4⟩ : DSCRLoanModel).summaryMetrics).map
        (fun mets => (mets.monthly_payment, mets.annual_debt_service))
      = some (417/50, 5003/50) ∧
    (417/50 : ℚ) * 12 ≠ 5003/50 := by
  constructor
  · simp only [DSCRLoanModel.summaryMetrics, m9_finalLoan]
    rw [if_neg (by norm_num)]
    simp only [Option.map_some', DSCRLoanModel.metricsForLoan, m9_payment]
    have hm : roundTo 2 (5003/600 : ℚ) = 417/50 := by
      rw [roundTo_eq_up 2 833 _ (by norm_num) (by norm_num)]
      norm_num
    have h12 : (5003/600 : ℚ) * 12 = 5003/50 := by norm_num
    have ha : roundTo 2 ((5003/600 : ℚ) * 12) = 5003/50 := by
      rw [h12, roundTo_eq_int 2 10006 _ (by norm_num)]
      norm_num
    rw [hm, ha]
  · norm_num

/-- C9 amended: whenever the final loan amount is computed, the summary's
metrics block reports `round2` of the loan amount, of the *unrounded* monthly
payment, and of the *unrounded* monthly payment × 12 (so the unrounded annual
debt service is exactly monthly × 12, while the two reported figures may
disagree by a rounding residue — see the counterexample), and reports `dscr`
and `ltv` rounded to 3 decimals. -/
theorem reported_metrics_rounding (m : DSCRLoanModel) (L : ℚ)
    (hL : m.finalLoanAmount = some L) (h0 : L ≠ 0) :
    m.summaryMetrics = some (m.metricsForLoan L) ∧
    (m.metricsForLoan L).loan_amount = roundTo 2 L ∧
    (m.metricsForLoan L).monthly_payment = roundTo 2 (m.paymentForLoan L) ∧
    (m.metricsForLoan L).annual_debt_service = roundTo 2 (m.paymentForLoan L * 12) ∧
    (m.metricsForLoan L).dscr = (if 0 < m.paymentForLoan L * 12
        then some (roundTo 3 (m.noi / (m.paymentForLoan L * 12))) else none) ∧
    (m.metricsForLoan L).ltv = (if 0 < m.purchase_price
        then some (roundTo 3 (L / m.purchase_price)) else none) := by
  refine ⟨?_, rfl, rfl, rfl, ?_, ?_⟩
  · simp only [DSCRLoanModel.summaryMetrics, hL]
    rw [if_neg h0]
  · simp only [DSCRLoanModel.metricsForLoan]
    split_ifs <;> simp
  · simp only [DSCRLoanModel.metricsForLoan]
    split_ifs <;> simp

/-- Witness for C9's amended statement at the counterexample model. -/
theorem reported_metrics_rounding_witness :
    ((⟨5003/50, 1000000, 0, 1, 1, 3/4⟩ : DSCRLoanModel).finalLoanAmount = some (5003/50) ∧
      (5003/50 : ℚ) ≠ 0) ∧
    (⟨5003/50, 1000000, 0, 1, 1, 3/4⟩ : DSCRLoanModel).summaryMetrics
      = some ((⟨5003/50, 1000000, 0, 1, 1, 3/4⟩ : DSCRLoanModel).metricsForLoan (5003/50)) :=
  ⟨⟨m9_finalLoan, by norm_num⟩,
   (reported_metrics_rounding _ _ m9_finalLoan (by norm_num)).1⟩

end Appraisal
